import Mathlib

set_option maxRecDepth 100000

/-!
Verification development for the AutoStream conversational sales agent
(`agent/graph.py`, `agent/nodes.py`, `agent/tools.py`, `agent/state.py`).

The Python code is shallowly embedded: each graph node becomes a pure Lean
function on an explicit session-state record, and the per-turn orchestration
of the compiled graph (classifier → router → generator → router → optional
tool execution) becomes the function `turn`.  The fallible external
language-model call is modelled as an oracle `String → Option String`
(`none` = call raised or returned nothing), and availability of the
retriever as a `Bool` flag.  Python string operations (`in`, `lower`,
`strip`, `split`, `replace`, `capitalize`) are re-implemented on `List Char`
with Python's semantics (ASCII case folding, which is what every keyword in
the source exercises).
-/

namespace AutoStream

/-- ASCII lower-casing of one character, as Python `str.lower` acts on the
ASCII range used throughout the agent's keyword tables. -/
def lowerChar (c : Char) : Char :=
  if 65 ≤ c.toNat ∧ c.toNat ≤ 90 then Char.ofNat (c.toNat + 32) else c

/-- ASCII upper-casing of one character (for Python `str.capitalize`). -/
def upperChar (c : Char) : Char :=
  if 97 ≤ c.toNat ∧ c.toNat ≤ 122 then Char.ofNat (c.toNat - 32) else c

/-- Whitespace test used by Python `str.strip` / `str.split()` on the ASCII
range. -/
def wsChar (c : Char) : Bool :=
  c == ' ' || c == '\t' || c == '\n' || c == '\r'

/-- `isPrefixL p s` : `p` is a prefix of `s` (Python `s.startswith(p)`). -/
def isPrefixL : List Char → List Char → Bool
  | [], _ => true
  | _ :: _, [] => false
  | a :: as, b :: bs => a == b && isPrefixL as bs

/-- `containsL pat s` : Python substring test `pat in s`. -/
def containsL (pat : List Char) : List Char → Bool
  | [] => isPrefixL pat []
  | c :: cs => isPrefixL pat (c :: cs) || containsL pat cs

/-- Python `pat in s` on strings. -/
def containsS (s pat : String) : Bool := containsL pat.data s.data

/-- Python `s.lower()` (ASCII range). -/
def pyLower (s : String) : String := ⟨s.data.map lowerChar⟩

/-- Strip leading and trailing whitespace from a character list. -/
def stripL (l : List Char) : List Char :=
  ((l.dropWhile (fun c => wsChar c)).reverse.dropWhile (fun c => wsChar c)).reverse

/-- Python `s.strip()`. -/
def pyStrip (s : String) : String := ⟨stripL s.data⟩

/-- Helper for Python `s.split()` (split on whitespace runs, dropping empty
pieces). -/
def pyWordsAux : List Char → List Char → List String
  | [], acc => if acc.isEmpty then [] else [⟨acc.reverse⟩]
  | c :: cs, acc =>
    if wsChar c then
      if acc.isEmpty then pyWordsAux cs [] else (⟨acc.reverse⟩ : String) :: pyWordsAux cs []
    else pyWordsAux cs (c :: acc)

/-- Python `s.split()` with no separator argument. -/
def pyWords (s : String) : List String := pyWordsAux s.data []

/-- Fuelled worker for Python `s.split(sep)`: left-to-right non-overlapping
scan.  The fuel is always instantiated with more than the length of the
scanned list, so it never runs out. -/
def pySplitAux (pat : List Char) : Nat → List Char → List Char → List (List Char)
  | 0, s, acc => [acc.reverse ++ s]
  | _ + 1, [], acc => [acc.reverse]
  | fuel + 1, c :: cs, acc =>
    if pat ≠ [] ∧ isPrefixL pat (c :: cs) then
      acc.reverse :: pySplitAux pat fuel ((c :: cs).drop pat.length) []
    else pySplitAux pat fuel cs (c :: acc)

/-- Python `s.split(pat)[-1]`: the text after the last (non-overlapping,
left-to-right) occurrence of `pat`, or all of `s` when `pat` does not
occur. -/
def pySplitLast (s pat : String) : String :=
  ⟨(pySplitAux pat.data (s.data.length + 1) s.data []).getLastD []⟩

/-- Fuelled worker for Python `s.replace(pat, repl)` (replace every
non-overlapping occurrence, scanning left to right). -/
def pyReplaceAux (pat repl : List Char) : Nat → List Char → List Char
  | 0, s => s
  | _ + 1, [] => []
  | fuel + 1, c :: cs =>
    if pat ≠ [] ∧ isPrefixL pat (c :: cs) then
      repl ++ pyReplaceAux pat repl fuel ((c :: cs).drop pat.length)
    else c :: pyReplaceAux pat repl fuel cs

/-- Python `s.replace(pat, repl)`. -/
def pyReplace (s pat repl : String) : String :=
  ⟨pyReplaceAux pat.data repl.data (s.data.length + 1) s.data⟩

/-- Python `s.capitalize()`: first character upper-cased, the rest
lower-cased. -/
def pyCapitalize (s : String) : String :=
  match s.data with
  | [] => ⟨[]⟩
  | c :: cs => ⟨upperChar c :: cs.map lowerChar⟩

example : containsS "how much is the pro plan?" "how much" = true := by decide
example : containsS "hello" "price" = false := by decide
example : pyLower "My Name IS Bob" = "my name is bob" := by decide
example : pyStrip "  John Doe  " = "John Doe" := by decide
example : pyWords "hi  there friend" = ["hi", "there", "friend"] := by decide
example : pySplitLast "My name is John Doe" "name is" = " John Doe" := by decide
example : pySplitLast "My Name is Bob" "name is" = "My Name is Bob" := by decide
example : pyReplace "i'm bob, i'm here" "i'm" "" = " bob,  here" := by decide
example : pyCapitalize "youTube" = "Youtube" := by decide

/-! ## State model (`agent/state.py`)

The `AgentState` TypedDict.  Keys may be missing from the Python dict, so
every field that the code reads through `state.get` is an `Option`.  The
`messages` field is special: `state.py` declares it without a reducer
annotation, so each LangGraph update overwrites it, and the webhook sends
`[HumanMessage(message)]` as the sole input; every node therefore sees the
current user message as `messages[-1]`.  The embedding passes that message
to the nodes explicitly. -/

/-- The `lead_info` dict `{name, email, platform}`; `none` models both a
missing key and Python `None`. -/
structure LeadInfo where
  name : Option String := none
  email : Option String := none
  platform : Option String := none
deriving DecidableEq, Repr

/-- Partial dict returned by `extract_lead_info`: a field is `none` when the
key is absent from the returned dict. -/
structure LeadDelta where
  name : Option String := none
  email : Option String := none
  platform : Option String := none
deriving DecidableEq, Repr

/-- Python `lead_info.update(extracted)`: keys present in the delta
overwrite, the rest are kept. -/
def updateLead (l : LeadInfo) (d : LeadDelta) : LeadInfo :=
  { name := match d.name with | some v => some v | none => l.name
    email := match d.email with | some v => some v | none => l.email
    platform := match d.platform with | some v => some v | none => l.platform }

/-- Python truthiness of an optional string: `None` and `""` are falsy. -/
def pyTruthy (o : Option String) : Bool := o.getD "" != ""

/-- A lead field is present when it is a non-empty string (the node code
tests `not v or v == "" or v is None`). -/
def present (o : Option String) : Bool := o.getD "" != ""

/-- The per-session `AgentState` minus the `messages` list (see above). -/
structure SessionState where
  intent : Option String := none
  lead_info : LeadInfo := {}
  waiting_for : Option String := none
  next_action : Option String := none
deriving DecidableEq, Repr

/-- Lazily created fresh session state: every key still missing. -/
def initialState : SessionState := {}

/-- All three lead fields present (non-empty). -/
def leadAllPresent (l : LeadInfo) : Bool :=
  present l.name && present l.email && present l.platform

/-- Field lookup by the string key the Python code uses in `waiting_for`. -/
def fieldGet (l : LeadInfo) (f : String) : Option String :=
  if f = "name" then l.name
  else if f = "email" then l.email
  else if f = "platform" then l.platform
  else none

/-- Presence of the field named `f`. -/
def fieldPresent (l : LeadInfo) (f : String) : Bool := present (fieldGet l f)

/-! ## Tools (`agent/tools.py`) -/

/-- `mock_lead_capture(name, email, platform)`: the external registration
action; errors exactly when an argument is falsy (empty). -/
def mock_lead_capture (name email platform : String) : String :=
  if name = "" ∨ email = "" ∨ platform = "" then "ERROR: Missing required fields"
  else "SUCCESS"

/-- `validate_email(email)` (advisory only; never called by the nodes). -/
def validate_email (email : String) : Bool :=
  containsS email "@" && containsS (pySplitLast email "@") "."

/-- The ordered `platform_map` dict of canonical platform names and known
misspellings (Python dicts iterate in insertion order). -/
def platformMap : List (String × String) :=
  [("youtube", "YouTube"), ("youtue", "YouTube"), ("youtub", "YouTube"),
   ("instagram", "Instagram"), ("insta", "Instagram"),
   ("tiktok", "TikTok"), ("ticktok", "TikTok"),
   ("facebook", "Facebook"), ("fb", "Facebook"),
   ("twitter", "Twitter"), ("x", "Twitter"),
   ("twitch", "Twitch"),
   ("linkedin", "LinkedIn"), ("linked", "LinkedIn")]

/-- `extract_lead_info(text, waiting_for)`: field-scoped extraction
heuristics.  Note the asymmetry in the name branch: the marker test is on
the lower-cased text, but the split is on the original text, and the
`I\x27m`/`I am` branch strips the markers out of the *lower-cased* text. -/
def extract_lead_info (text : String) (waiting_for : String) : LeadDelta :=
  let text_lower := pyLower text
  if waiting_for = "name" then
    if containsS text_lower "name is" then
      { name := some (pyStrip (pySplitLast text "name is")) }
    else if containsS text_lower "i\x27m " || containsS text_lower "i am " then
      { name := some (pyStrip (pyReplace (pyReplace text_lower "i\x27m" "") "i am" "")) }
    else
      { name := some (pyStrip text) }
  else if waiting_for = "email" then
    match (pyWords text).find? (fun w => containsS w "@") with
    | some w => { email := some (pyStrip w) }
    | none => { email := some (pyStrip text) }
  else if waiting_for = "platform" then
    let tl := pyStrip text_lower
    match platformMap.find? (fun kv => containsS tl kv.1) with
    | some kv => { platform := some kv.2 }
    | none => { platform := some (pyCapitalize (pyStrip text)) }
  else {}

example : extract_lead_info "My name is John Doe" "name" = { name := some "John Doe" } := by decide
example : extract_lead_info "john.doe@example.com" "email" = { email := some "john.doe@example.com" } := by decide
example : extract_lead_info "YouTube" "platform" = { platform := some "YouTube" } := by decide
example : extract_lead_info "I use ticktok mostly" "platform" = { platform := some "TikTok" } := by decide

/-! ## Intent classifier (`agent/nodes.py`, `intent_classifier_node`)

The language model is an oracle `String → Option String`; `none` models an
exception from `llm.invoke` (caught by the bare `except`). -/

/-- Output dict of `intent_classifier_node`. -/
structure ClassifierOut where
  intent : String
  next_action : String
deriving DecidableEq, Repr

/-- `high_intent_keywords`. -/
def highIntentKeywords : List String :=
  ["sign up", "want to try", "i want", "get started",
   "purchase", "buy", "subscribe", "interested in",
   "ready to", "let\x27s go", "sounds good", "i\x27ll take"]

/-- `inquiry_keywords`. -/
def inquiryKeywords : List String :=
  ["how much", "price", "pricing", "cost", "plan", "feature",
   "what is", "tell me about", "do you", "can i", "support",
   "refund", "cancel", "trial"]

/-- `greeting_keywords`. -/
def greetingKeywords : List String := ["hi", "hello", "hey", "good morning", "good afternoon"]

/-- The four labels the classifier accepts back from the model. -/
def validIntents : List String := ["greeting", "inquiry", "high_intent", "unknown"]

/-- `intent_classifier_node(state)`, with the latest message passed
explicitly (see the state-model note) and the model as an oracle. -/
def intentClassifierNode (llm : String → Option String) (s : SessionState)
    (lastMsg : String) : ClassifierOut :=
  if pyTruthy s.waiting_for then
    { intent := s.intent.getD "high_intent", next_action := "route" }
  else
    let ml := pyLower lastMsg
    if highIntentKeywords.any (fun k => containsS ml k) then
      { intent := "high_intent", next_action := "route" }
    else if inquiryKeywords.any (fun k => containsS ml k) then
      { intent := "inquiry", next_action := "route" }
    else if greetingKeywords.any (fun k => containsS ml k) && (pyWords ml).length < 10 then
      { intent := "greeting", next_action := "route" }
    else
      match llm lastMsg with
      | some resp =>
        let i := pyLower (pyStrip resp)
        if validIntents.contains i then { intent := i, next_action := "route" }
        else { intent := "inquiry", next_action := "route" }
      | none => { intent := "inquiry", next_action := "route" }

/-! ## Knowledge base and the deterministic fallback
(`agent/nodes.py`, `_get_fallback_response`) -/

/-- One entry of `pricing_plans` in `rag/knowledge_base.json`. -/
structure PricingPlan where
  name : String
  price : String
  features : List String
deriving DecidableEq, Repr

/-- Modelled from the spec: `rag/knowledge_base.json` is data the repository
ships outside the source files available here.  Per the spec's knowledge-base
format (an ordered list of `pricing_plans`, each with `name`, `price`,
`features[]`) and the plan names and prices hard-coded in `agent/nodes.py`
("Basic at $29/month and Pro at $79/month", plan names "Basic Plan" /
"Pro Plan", Pro features "unlimited videos, 4K resolution, AI-powered
features, and 24/7 support"). -/
def kbPricingPlans : List PricingPlan :=
  [{ name := "Basic Plan", price := "$29/month",
     features := ["720p resolution", "Basic editing tools"] },
   { name := "Pro Plan", price := "$79/month",
     features := ["Unlimited videos", "4K resolution", "AI-powered features", "24/7 support"] }]

/-- The bullet list `"• {name}: {price}"` built for the general pricing
answer. -/
def plansInfo : String :=
  String.intercalate "\n" (kbPricingPlans.map (fun p => "• " ++ p.name ++ ": " ++ p.price))

/-- Feature bullet list (first five features) used in the plan-specific
answers. -/
def featuresStr (p : PricingPlan) : String :=
  String.intercalate "\n" ((p.features.take 5).map (fun f => "• " ++ f))

/-- Pro-plan-specific fallback reply. -/
def proPlanReply (p : PricingPlan) : String :=
  "The Pro Plan is " ++ p.price ++ ". Here are the key features:\n" ++ featuresStr p ++
  "\n\nThis plan is perfect for professional content creators, YouTubers, and businesses. Would you like to know more or get started?"

/-- Basic-plan-specific fallback reply. -/
def basicPlanReply (p : PricingPlan) : String :=
  "The Basic Plan is " ++ p.price ++ ". Here are the key features:\n" ++ featuresStr p ++
  "\n\nWould you like to learn more about upgrading to Pro?"

/-- General two-plan pricing reply. -/
def generalPricingReply : String :=
  "AutoStream offers two pricing plans:\n\n" ++ plansInfo ++
  "\n\nBoth plans include a 14-day free trial with no credit card required. The Pro Plan includes unlimited videos, 4K resolution, AI-powered features, and 24/7 support. Would you like more details about either plan?"

/-- Default fallback reply for non-pricing queries. -/
def defaultFallbackReply : String :=
  "I\x27d be happy to help! AutoStream offers two plans: Basic at $29/month and Pro at $79/month. Both include our AI-powered video editing tools. What would you like to know more about?"

/-- Keyword family guarding the pricing block of `_get_fallback_response`. -/
def fallbackPricingKeywords : List String := ["price", "pricing", "cost", "plan", "how much"]

/-- `_get_fallback_response(query, retriever)`: deterministic knowledge-base
answer, no model involved. -/
def getFallbackResponse (query : String) : String :=
  let ql := pyLower query
  if fallbackPricingKeywords.any (fun k => containsS ql k) then
    if containsS ql "pro" then
      match kbPricingPlans.find? (fun p => p.name == "Pro Plan") with
      | some p => proPlanReply p
      | none => generalPricingReply
    else if containsS ql "basic" then
      match kbPricingPlans.find? (fun p => p.name == "Basic Plan") with
      | some p => basicPlanReply p
      | none => generalPricingReply
    else generalPricingReply
  else defaultFallbackReply

/-! ## RAG node (`agent/nodes.py`, `rag_node`) -/

/-- Output of a reply-producing generator node (`rag_node`,
`greeting_node`). -/
structure GenOut where
  reply : String
  next_action : String
deriving DecidableEq, Repr

/-- Keyword family that triggers the model-free fast path of `rag_node`. -/
def ragPricingKeywords : List String :=
  ["price", "pricing", "cost", "how much", "plan", "pro plan", "basic plan", "pro price", "basic price"]

/-- `rag_node(state)`.  `retrieverOk` models whether `get_retriever()`
succeeds; when it raises, both the fast path and the standard path fall
through to `_get_fallback_response`.  On the standard path the model reply
is discarded in favour of the fallback when it is empty or shorter than 20
characters after stripping. -/
def ragNode (retrieverOk : Bool) (llm : String → Option String) (lastMsg : String) : GenOut :=
  let ql := pyLower lastMsg
  let isPricing := ragPricingKeywords.any (fun k => containsS ql k)
  if isPricing && retrieverOk then
    { reply := getFallbackResponse lastMsg, next_action := "end" }
  else if retrieverOk then
    match llm lastMsg with
    | some r =>
      if pyStrip r = "" then { reply := getFallbackResponse lastMsg, next_action := "end" }
      else if (pyStrip r).length < 20 then { reply := getFallbackResponse lastMsg, next_action := "end" }
      else { reply := r, next_action := "end" }
    | none => { reply := getFallbackResponse lastMsg, next_action := "end" }
  else
    { reply := getFallbackResponse lastMsg, next_action := "end" }

/-! ## Greeting node (`agent/nodes.py`, `greeting_node`) -/

/-- `greeting_node(state)`: a fixed reply. -/
def greetingNode : GenOut :=
  { reply := "Hi there! 👋 I\x27m here to help you learn about AutoStream, our AI-powered video editing platform for content creators. What would you like to know?"
    next_action := "end" }

/-! ## Lead capture node (`agent/nodes.py`, `lead_capture_node`) -/

/-- Output dict of `lead_capture_node`; `reply = none` models the
`execute_tool` branch, which returns no `messages` key. -/
structure LeadOut where
  reply : Option String
  lead_info : LeadInfo
  waiting_for : Option String
  next_action : String
deriving DecidableEq, Repr

/-- Opening question of the capture dialogue. -/
def leadStartReply : String :=
  "That\x27s great! I\x27d love to help you get started with the Pro plan. Can I get your name first?"

/-- Re-ask for the name. -/
def askNameReply : String := "Could you please provide your name?"

/-- Ask for the email, personalised with the collected name. -/
def askEmailReply (name : String) : String :=
  "Thanks, " ++ name ++ "! What\x27s your email address?"

/-- Ask for the platform. -/
def askPlatformReply : String :=
  "Great! Which platform do you primarily create content for? (e.g., YouTube, Instagram, TikTok)"

/-- `lead_capture_node(state)` with the latest message passed explicitly.
The first branch tests `waiting_for is None` exactly as the Python does. -/
def leadCaptureNode (s : SessionState) (lastMsg : String) : LeadOut :=
  let lead := s.lead_info
  match s.waiting_for with
  | none =>
    { reply := some leadStartReply, lead_info := lead, waiting_for := some "name",
      next_action := "end" }
  | some w =>
    let lead2 := updateLead lead (extract_lead_info lastMsg w)
    if !present lead2.name then
      { reply := some askNameReply, lead_info := lead2, waiting_for := some "name",
        next_action := "end" }
    else if !present lead2.email then
      { reply := some (askEmailReply (lead2.name.getD "")), lead_info := lead2,
        waiting_for := some "email", next_action := "end" }
    else if !present lead2.platform then
      { reply := some askPlatformReply, lead_info := lead2, waiting_for := some "platform",
        next_action := "end" }
    else
      { reply := none, lead_info := lead2, waiting_for := none, next_action := "execute_tool" }

/-! ## Tool execution node (`agent/nodes.py`, `tool_execution_node`) -/

/-- Output of `tool_execution_node`; `toolCalled` records whether the
external `mock_lead_capture` action was actually invoked. -/
structure ToolOut where
  reply : String
  next_action : String
  toolCalled : Bool
deriving DecidableEq, Repr

/-- The defensive reply enumerating exactly the missing fields. -/
def missingFieldsReply (nameMissing emailMissing platformMissing : Bool) : String :=
  "I\x27m sorry, I\x27m missing some information. Could you please provide:\n" ++
  (if nameMissing then "- Your name\n" else "") ++
  (if emailMissing then "- Your email address\n" else "") ++
  (if platformMissing then "- Your content platform\n" else "") ++
  "\nLet\x27s try again!"

/-- Confirmation reply naming the lead and echoing the email. -/
def successReply (name email : String) : String :=
  "Perfect! I\x27ve got you all set up, " ++ name ++ ". You\x27ll receive an email at " ++
  email ++ " with instructions to activate your Pro plan. Welcome to AutoStream! 🎉"

/-- Apologetic reply for a non-`SUCCESS` result from the registration
action. -/
def failureReply (result : String) : String :=
  "I\x27m sorry, there was an issue capturing your information: " ++ result ++
  ". Please try again later."

/-- `tool_execution_node(state)`. -/
def toolExecutionNode (s : SessionState) : ToolOut :=
  let name := s.lead_info.name.getD ""
  let email := s.lead_info.email.getD ""
  let platform := s.lead_info.platform.getD ""
  if name = "" ∨ email = "" ∨ platform = "" then
    { reply := missingFieldsReply (name = "") (email = "") (platform = "")
      next_action := "end", toolCalled := false }
  else
    let result := mock_lead_capture name email platform
    if result = "SUCCESS" then
      { reply := successReply name email, next_action := "end", toolCalled := true }
    else
      { reply := failureReply result, next_action := "end", toolCalled := true }

/-! ## Routers and the per-turn orchestration (`agent/graph.py`) -/

/-- `route_by_intent(state)`: the conditional-edge function out of the
classifier. -/
def route_by_intent (s : SessionState) : String :=
  let intent := s.intent.getD "unknown"
  if pyTruthy s.waiting_for then "lead_capture"
  else if intent = "greeting" then "greeting"
  else if intent = "inquiry" then "rag"
  else if intent = "high_intent" then "lead_capture"
  else "rag"

/-- `route_next_action(state)`: the conditional-edge function out of the
generator nodes. -/
def route_next_action (s : SessionState) : String :=
  let na := s.next_action.getD "end"
  if na = "execute_tool" then "tool_execution"
  else if na = "route" then "router"
  else "end"

/-- Result of one webhook turn: the persisted state, the agent replies
appended this turn, and whether the external registration tool ran. -/
structure TurnOut where
  state : SessionState
  replies : List String
  toolCalled : Bool
deriving DecidableEq, Repr

/-- Post-generator step: apply `route_next_action`; the `tool_execution`
edge runs the tool node.  (Generator nodes only ever emit `end` or
`execute_tool`, so the `router` edge back to the classifier is never taken
after a generator and is not modelled.) -/
def afterGenerator (s : SessionState) (replies : List String) : TurnOut :=
  if route_next_action s = "tool_execution" then
    let t := toolExecutionNode s
    { state := { s with next_action := some t.next_action },
      replies := replies ++ [t.reply], toolCalled := t.toolCalled }
  else
    { state := s, replies := replies, toolCalled := false }

/-- One webhook turn: classifier → `route_by_intent` → generator →
`route_next_action` → optional tool execution → END. -/
def turn (retrieverOk : Bool) (llm : String → Option String) (s : SessionState)
    (userMsg : String) : TurnOut :=
  let cls := intentClassifierNode llm s userMsg
  let s1 : SessionState := { s with intent := some cls.intent, next_action := some cls.next_action }
  let dest := route_by_intent s1
  if dest = "greeting" then
    afterGenerator { s1 with next_action := some greetingNode.next_action } [greetingNode.reply]
  else if dest = "rag" then
    let g := ragNode retrieverOk llm userMsg
    afterGenerator { s1 with next_action := some g.next_action } [g.reply]
  else
    let l := leadCaptureNode s1 userMsg
    afterGenerator
      { s1 with lead_info := l.lead_info, waiting_for := l.waiting_for,
                next_action := some l.next_action }
      (match l.reply with | some r => [r] | none => [])

/-- Fold a list of user messages through `turn`, returning the final
persisted state (retriever available, model always failing — the traces
below never reach a model branch). -/
def runTurnsState (msgs : List String) : SessionState :=
  msgs.foldl (fun s m => (turn true (fun _ => none) s m).state) initialState

/-! ## Helper lemmas -/

theorem data_append (a b : String) : (a ++ b).data = a.data ++ b.data := by
  cases a; cases b; rfl

theorem isPrefixL_self_append (p t : List Char) : isPrefixL p (p ++ t) = true := by
  induction p with
  | nil => rfl
  | cons c cs ih => simp [isPrefixL, ih]

theorem containsL_self_append (p t : List Char) : containsL p (p ++ t) = true := by
  cases p with
  | nil => cases t <;> rfl
  | cons c cs =>
    have h := isPrefixL_self_append (c :: cs) t
    simp only [List.cons_append] at h
    simp [containsL, h]

theorem containsL_append_right (p a s : List Char) (h : containsL p s = true) :
    containsL p (a ++ s) = true := by
  induction a with
  | nil => exact h
  | cons c cs ih => simp [containsL, ih]

theorem containsL_middle (a m b : List Char) : containsL m (a ++ (m ++ b)) = true :=
  containsL_append_right _ _ _ (containsL_self_append m b)

theorem present_eq_true {o : Option String} : present o = true ↔ o.getD "" ≠ "" := by
  simp [present]

theorem present_eq_false {o : Option String} : present o = false ↔ o.getD "" = "" := by
  simp [present]

theorem successReply_contains_name (n e : String) : containsS (successReply n e) n = true := by
  unfold containsS successReply
  simp only [data_append, List.append_assoc]
  exact containsL_middle _ _ _

theorem successReply_contains_email (n e : String) : containsS (successReply n e) e = true := by
  unfold containsS successReply
  simp only [data_append, List.append_assoc]
  exact containsL_append_right _ _ _ (containsL_append_right _ _ _ (containsL_middle _ _ _))

/-- The extraction of `extract_lead_info` is scoped to exactly the field
named by `waiting_for`: all other keys are absent from the returned dict. -/
theorem extract_scoped (msg w : String) :
    (w ≠ "name" → (extract_lead_info msg w).name = none) ∧
    (w ≠ "email" → (extract_lead_info msg w).email = none) ∧
    (w ≠ "platform" → (extract_lead_info msg w).platform = none) := by
  unfold extract_lead_info
  by_cases h1 : w = "name"
  · subst h1
    refine ⟨fun h => absurd rfl h, fun _ => ?_, fun _ => ?_⟩ <;>
      · simp only [if_pos rfl]
        (try split_ifs) <;> (try split) <;> rfl
  · rw [if_neg h1]
    by_cases h2 : w = "email"
    · subst h2
      refine ⟨fun _ => ?_, fun h => absurd rfl h, fun _ => ?_⟩ <;>
        · simp only [if_pos rfl]
          (try split_ifs) <;> (try split) <;> rfl
    · rw [if_neg h2]
      by_cases h3 : w = "platform"
      · subst h3
        refine ⟨fun _ => ?_, fun _ => ?_, fun h => absurd rfl h⟩ <;>
          · simp only [if_pos rfl]
            (try split_ifs) <;> (try split) <;> rfl
      · rw [if_neg h3]
        exact ⟨fun _ => rfl, fun _ => rfl, fun _ => rfl⟩

/-! ## Claims -/

/-- C1: `route_by_intent` force-routes to Lead Capture whenever
`pending_field` (`waiting_for`) is set, regardless of the stored intent;
otherwise it dispatches `greeting`→Greeting, `inquiry`→Inquiry/RAG,
`high_intent`→Lead Capture, and any other (or missing) intent →Inquiry/RAG;
its value is always one of the three labelled edges of the graph, so it is
total over all states. -/
theorem route_by_intent_dispatch (s : SessionState) :
    (pyTruthy s.waiting_for = true → route_by_intent s = "lead_capture") ∧
    (pyTruthy s.waiting_for = false →
      (s.intent = some "greeting" → route_by_intent s = "greeting") ∧
      (s.intent = some "inquiry" → route_by_intent s = "rag") ∧
      (s.intent = some "high_intent" → route_by_intent s = "lead_capture") ∧
      (∀ i : String, s.intent = some i → i ≠ "greeting" → i ≠ "inquiry" →
         i ≠ "high_intent" → route_by_intent s = "rag") ∧
      (s.intent = none → route_by_intent s = "rag")) ∧
    (route_by_intent s = "greeting" ∨ route_by_intent s = "rag" ∨
      route_by_intent s = "lead_capture") := by
  refine ⟨fun hw => by simp [route_by_intent, hw], fun hw => ?_, ?_⟩
  · refine ⟨fun hi => by simp [route_by_intent, hw, hi],
      fun hi => by simp [route_by_intent, hw, hi],
      fun hi => by simp [route_by_intent, hw, hi],
      fun i hi h1 h2 h3 => by simp [route_by_intent, hw, hi, h1, h2, h3],
      fun hi => by simp [route_by_intent, hw, hi]⟩
  · by_cases hw : pyTruthy s.waiting_for
    · simp [route_by_intent, hw]
    · by_cases h1 : s.intent.getD "unknown" = "greeting"
      · simp [route_by_intent, hw, h1]
      · by_cases h2 : s.intent.getD "unknown" = "inquiry"
        · simp [route_by_intent, hw, h1, h2]
        · by_cases h3 : s.intent.getD "unknown" = "high_intent"
          · simp [route_by_intent, hw, h1, h2, h3]
          · simp [route_by_intent, hw, h1, h2, h3]

/-- Witness for C1 at a concrete state: `pending_field = email` wins over a
stored `inquiry` intent. -/
theorem route_by_intent_dispatch_witness :
    pyTruthy (some "email" : Option String) = true ∧
    route_by_intent { intent := some "inquiry", waiting_for := some "email" } = "lead_capture" :=
  ⟨by decide, (route_by_intent_dispatch _).1 (by decide)⟩

/-- C2: while `pending_field` (`waiting_for`) is set, the intent classifier
echoes the previously stored intent for every model oracle and every latest
message: no keyword or model classification takes place and the intent
never changes. -/
theorem intent_lock_while_pending (llm : String → Option String) (s : SessionState)
    (msg i : String) (hw : pyTruthy s.waiting_for = true) (hi : s.intent = some i) :
    intentClassifierNode llm s msg = { intent := i, next_action := "route" } := by
  simp [intentClassifierNode, hw, hi]

/-- Witness for C2: submitting "hello" while waiting for the email keeps the
stored `high_intent`, even with a model that would answer `greeting`. -/
theorem intent_lock_while_pending_witness :
    pyTruthy (some "email" : Option String) = true ∧
    intentClassifierNode (fun _ => some "greeting")
        { intent := some "high_intent", waiting_for := some "email" } "hello" =
      { intent := "high_intent", next_action := "route" } :=
  ⟨by decide, intent_lock_while_pending _ _ _ _ (by decide) rfl⟩

/-- C7: with `pending_field` unset, the keyword cascade gives `high_intent`
priority: any message containing a high-intent keyword — in particular one
also containing a greeting keyword — classifies as `high_intent`; and with
the model disabled, a `greeting` result can only come from the cascade, so
it requires a greeting keyword, fewer than 10 words, and no higher-priority
keyword match. -/
theorem classifier_priority :
    (∀ (llm : String → Option String) (s : SessionState) (msg : String),
        pyTruthy s.waiting_for = false →
        highIntentKeywords.any (fun k => containsS (pyLower msg) k) = true →
        greetingKeywords.any (fun k => containsS (pyLower msg) k) = true →
        intentClassifierNode llm s msg = { intent := "high_intent", next_action := "route" }) ∧
    (∀ (s : SessionState) (msg : String),
        pyTruthy s.waiting_for = false →
        (intentClassifierNode (fun _ => none) s msg).intent = "greeting" →
        greetingKeywords.any (fun k => containsS (pyLower msg) k) = true ∧
        (pyWords (pyLower msg)).length < 10 ∧
        highIntentKeywords.any (fun k => containsS (pyLower msg) k) = false ∧
        inquiryKeywords.any (fun k => containsS (pyLower msg) k) = false) := by
  constructor
  · intro llm s msg hw hh _
    simp [intentClassifierNode, hw, hh]
  · intro s msg hw hg
    by_cases h1 : highIntentKeywords.any (fun k => containsS (pyLower msg) k)
    · simp [intentClassifierNode, hw, h1] at hg
    · by_cases h2 : inquiryKeywords.any (fun k => containsS (pyLower msg) k)
      · simp [intentClassifierNode, hw, h1, h2] at hg
      · by_cases h3 : greetingKeywords.any (fun k => containsS (pyLower msg) k)
        · by_cases h4 : (pyWords (pyLower msg)).length < 10
          · exact ⟨h3, h4, by simp [h1], by simp [h2]⟩
          · simp [intentClassifierNode, hw, h1, h2, h3, h4] at hg
        · simp [intentClassifierNode, hw, h1, h2, h3] at hg

/-- Witness for C7: "hello i want to sign up" contains the greeting keyword
"hello" and the high-intent keyword "i want", and classifies as
`high_intent`. -/
theorem classifier_priority_witness :
    intentClassifierNode (fun _ => none) initialState "hello i want to sign up" =
      { intent := "high_intent", next_action := "route" } :=
  classifier_priority.1 _ _ _ (by decide) (by decide) (by decide)

/-- C10: `mock_lead_capture` returns `"SUCCESS"` for every triple of
non-empty arguments (its error string needs an empty argument), so whenever
tool execution is entered with all three lead fields present the failure
and exception branches are unreachable and the reply is always the success
confirmation. -/
theorem mock_lead_capture_total_success :
    (∀ n e p : String, n ≠ "" → e ≠ "" → p ≠ "" → mock_lead_capture n e p = "SUCCESS") ∧
    (∀ s : SessionState, leadAllPresent s.lead_info = true →
        (toolExecutionNode s).reply =
          successReply (s.lead_info.name.getD "") (s.lead_info.email.getD "") ∧
        (toolExecutionNode s).toolCalled = true) := by
  constructor
  · intro n e p hn he hp
    simp [mock_lead_capture, hn, he, hp]
  · intro s h
    rw [leadAllPresent, Bool.and_eq_true, Bool.and_eq_true] at h
    obtain ⟨⟨hn, he⟩, hp⟩ := h
    rw [present_eq_true] at hn he hp
    simp [toolExecutionNode, hn, he, hp, mock_lead_capture]

/-- A concrete completed-lead state used by several witnesses. -/
def completedLeadState : SessionState :=
  { lead_info := { name := some "John Doe", email := some "john@doe.com",
                   platform := some "YouTube" } }

/-- Witness for C10 on a concrete completed lead. -/
theorem mock_lead_capture_total_success_witness :
    mock_lead_capture "John Doe" "john@doe.com" "YouTube" = "SUCCESS" ∧
    (toolExecutionNode completedLeadState).reply = successReply "John Doe" "john@doe.com" :=
  ⟨mock_lead_capture_total_success.1 _ _ _ (by decide) (by decide) (by decide),
   (mock_lead_capture_total_success.2 _ (by decide)).1⟩

/-- C9: entered with any lead field absent (missing or empty), tool
execution replies with the list of exactly the missing fields, terminates
(`next_action = "end"`), and does not invoke the registration action;
entered with all fields present, the `"SUCCESS"` result produces a
confirmation that names the lead and echoes the email. -/
theorem tool_execution_defensive :
    (∀ s : SessionState, leadAllPresent s.lead_info = false →
        toolExecutionNode s =
          { reply := missingFieldsReply (!present s.lead_info.name) (!present s.lead_info.email)
              (!present s.lead_info.platform),
            next_action := "end", toolCalled := false }) ∧
    (∀ a b c : Bool,
        containsS (missingFieldsReply a b c) "- Your name" = a ∧
        containsS (missingFieldsReply a b c) "- Your email address" = b ∧
        containsS (missingFieldsReply a b c) "- Your content platform" = c) ∧
    (∀ s : SessionState, leadAllPresent s.lead_info = true →
        (toolExecutionNode s).toolCalled = true ∧
        (toolExecutionNode s).next_action = "end" ∧
        (toolExecutionNode s).reply =
          successReply (s.lead_info.name.getD "") (s.lead_info.email.getD "") ∧
        containsS (toolExecutionNode s).reply (s.lead_info.name.getD "") = true ∧
        containsS (toolExecutionNode s).reply (s.lead_info.email.getD "") = true) := by
  refine ⟨?_, by decide, ?_⟩
  · intro s h
    rw [leadAllPresent] at h
    by_cases hn : s.lead_info.name.getD "" = "" <;>
      by_cases he : s.lead_info.email.getD "" = "" <;>
        by_cases hp : s.lead_info.platform.getD "" = ""
    all_goals
      (try (rw [present_eq_true.mpr hn, present_eq_true.mpr he,
        present_eq_true.mpr hp] at h; simp at h))
    all_goals
      first
        | simp [toolExecutionNode, present_eq_false.mpr hn, present_eq_false.mpr he,
            present_eq_false.mpr hp, hn, he, hp]
        | simp [toolExecutionNode, present_eq_false.mpr hn, present_eq_false.mpr he,
            present_eq_true.mpr hp, hn, he, hp]
        | simp [toolExecutionNode, present_eq_false.mpr hn, present_eq_true.mpr he,
            present_eq_false.mpr hp, hn, he, hp]
        | simp [toolExecutionNode, present_eq_false.mpr hn, present_eq_true.mpr he,
            present_eq_true.mpr hp, hn, he, hp]
        | simp [toolExecutionNode, present_eq_true.mpr hn, present_eq_false.mpr he,
            present_eq_false.mpr hp, hn, he, hp]
        | simp [toolExecutionNode, present_eq_true.mpr hn, present_eq_false.mpr he,
            present_eq_true.mpr hp, hn, he, hp]
        | simp [toolExecutionNode, present_eq_true.mpr hn, present_eq_true.mpr he,
            present_eq_false.mpr hp, hn, he, hp]
  · intro s h
    rw [leadAllPresent, Bool.and_eq_true, Bool.and_eq_true] at h
    obtain ⟨⟨hn, he⟩, hp⟩ := h
    rw [present_eq_true] at hn he hp
    have hnode : toolExecutionNode s =
        { reply := successReply (s.lead_info.name.getD "") (s.lead_info.email.getD "")
          next_action := "end", toolCalled := true } := by
      simp [toolExecutionNode, hn, he, hp, mock_lead_capture]
    rw [hnode]
    exact ⟨rfl, rfl, rfl, successReply_contains_name _ _, successReply_contains_email _ _⟩

/-- Witness for C9: with only the name present, the reply asks for email and
platform but not for the name, and the tool is not called. -/
theorem tool_execution_defensive_witness :
    leadAllPresent (LeadInfo.mk (some "John") none none) = false ∧
    toolExecutionNode { lead_info := LeadInfo.mk (some "John") none none } =
      { reply := missingFieldsReply false true true, next_action := "end", toolCalled := false } ∧
    containsS (missingFieldsReply false true true) "- Your name" = false ∧
    containsS (missingFieldsReply false true true) "- Your email address" = true :=
  ⟨by decide,
   tool_execution_defensive.1 { lead_info := LeadInfo.mk (some "John") none none } (by decide),
   (tool_execution_defensive.2.1 false true true).1,
   (tool_execution_defensive.2.1 false true true).2.1⟩

/-- The first absent field in the fixed collection order
name → email → platform, as the spec describes it. -/
def firstAbsent (l : LeadInfo) : Option String :=
  if !present l.name then some "name"
  else if !present l.email then some "email"
  else if !present l.platform then some "platform"
  else none

/-- The question the lead-capture node asks for a given field. -/
def questionFor (l : LeadInfo) (f : String) : String :=
  if f = "name" then askNameReply
  else if f = "email" then askEmailReply (l.name.getD "")
  else askPlatformReply

/-- C5: on first entry (`pending_field` absent) lead capture asks for the
name, performs no extraction, and sets `pending_field = name`; on every
extraction turn the question asked and the new `pending_field` are exactly
the first absent field of the updated lead in the fixed order
name → email → platform, and when no field is absent no question is asked
and the turn hands off to tool execution. -/
theorem ordered_questioning :
    (∀ (s : SessionState) (msg : String), s.waiting_for = none →
        leadCaptureNode s msg =
          { reply := some leadStartReply, lead_info := s.lead_info,
            waiting_for := some "name", next_action := "end" }) ∧
    (∀ (s : SessionState) (msg w g : String), s.waiting_for = some w →
        firstAbsent (updateLead s.lead_info (extract_lead_info msg w)) = some g →
        (leadCaptureNode s msg).waiting_for = some g ∧
        (leadCaptureNode s msg).reply =
          some (questionFor (updateLead s.lead_info (extract_lead_info msg w)) g) ∧
        (leadCaptureNode s msg).next_action = "end") ∧
    (∀ (s : SessionState) (msg w : String), s.waiting_for = some w →
        firstAbsent (updateLead s.lead_info (extract_lead_info msg w)) = none →
        (leadCaptureNode s msg).waiting_for = none ∧
        (leadCaptureNode s msg).reply = none ∧
        (leadCaptureNode s msg).next_action = "execute_tool") := by
  refine ⟨fun s msg hw => by simp [leadCaptureNode, hw], ?_, ?_⟩
  · intro s msg w g hw hfa
    by_cases hn : present (updateLead s.lead_info (extract_lead_info msg w)).name
    · by_cases he : present (updateLead s.lead_info (extract_lead_info msg w)).email
      · by_cases hp : present (updateLead s.lead_info (extract_lead_info msg w)).platform
        · simp [firstAbsent, hn, he, hp] at hfa
        · simp [firstAbsent, hn, he, hp] at hfa
          subst hfa
          simp [leadCaptureNode, hw, hn, he, hp, questionFor]
      · simp [firstAbsent, hn, he] at hfa
        subst hfa
        simp [leadCaptureNode, hw, hn, he, questionFor]
    · simp [firstAbsent, hn] at hfa
      subst hfa
      simp [leadCaptureNode, hw, hn, questionFor]
  · intro s msg w hw hfa
    by_cases hn : present (updateLead s.lead_info (extract_lead_info msg w)).name <;>
      by_cases he : present (updateLead s.lead_info (extract_lead_info msg w)).email <;>
        by_cases hp : present (updateLead s.lead_info (extract_lead_info msg w)).platform <;>
          simp_all [firstAbsent, leadCaptureNode, hw]

/-- A state mid-capture: name and email collected, waiting for the
platform. -/
def awaitingPlatformState : SessionState :=
  { lead_info := LeadInfo.mk (some "John") (some "j@d.com") none,
    waiting_for := some "platform" }

/-- Witness for C5: a first-entry state asks for the name, and with name and
email collected and `pending_field = platform`, answering "YouTube"
completes the lead and hands off to the tool. -/
theorem ordered_questioning_witness :
    leadCaptureNode initialState "I want to sign up" =
      { reply := some leadStartReply, lead_info := initialState.lead_info,
        waiting_for := some "name", next_action := "end" } ∧
    (leadCaptureNode awaitingPlatformState "YouTube").next_action = "execute_tool" :=
  ⟨ordered_questioning.1 initialState "I want to sign up" rfl,
   (ordered_questioning.2.2 awaitingPlatformState "YouTube" "platform" rfl (by decide)).2.2⟩

/-- A four-turn conversation that completes a lead capture (the tool runs on
the fourth turn), followed by a fifth high-intent message that re-enters
lead capture with the lead still fully present. -/
def completedCaptureMsgs : List String :=
  ["I want to sign up", "John", "john@doe.com", "YouTube"]

/-- C4 counterexample: on the fifth turn ("I want to sign up" again, sent
after a completed capture) the Lead Capture node runs (its reply is the
opening capture question) and ends with all three lead fields present, yet
Tool Execution is not invoked — the claimed "if and only if" fails in the
if direction, because the first-entry branch of `lead_capture_node` always
asks for the name and terminates without checking the lead. -/
theorem tool_gating_counterexample :
    leadAllPresent
        (turn true (fun _ => none) (runTurnsState completedCaptureMsgs)
          "I want to sign up").state.lead_info = true ∧
    (turn true (fun _ => none) (runTurnsState completedCaptureMsgs)
        "I want to sign up").replies = [leadStartReply] ∧
    (turn true (fun _ => none) (runTurnsState completedCaptureMsgs)
        "I want to sign up").toolCalled = false := by
  refine ⟨by decide, by decide, by decide⟩

/-- C4 amended: on extraction turns (`pending_field` set) lead capture emits
`execute_tool` exactly when all three fields are present afterwards; in
every case `execute_tool` implies a complete lead (so Tool Execution only
ever receives a complete lead); the router forwards exactly
`next_step = execute_tool` to Tool Execution; and no other node ever emits
`execute_tool`.  However, on first entry (`pending_field` unset) lead
capture always asks for the name and terminates, even when all three fields
are already present, so "invoked iff all fields present at the end of the
Lead Capture step" does not hold for first-entry turns. -/
theorem tool_gating_amended :
    (∀ (s : SessionState) (msg w : String), s.waiting_for = some w →
        ((leadCaptureNode s msg).next_action = "execute_tool" ↔
          leadAllPresent (leadCaptureNode s msg).lead_info = true)) ∧
    (∀ (s : SessionState) (msg : String),
        (leadCaptureNode s msg).next_action = "execute_tool" →
        leadAllPresent (leadCaptureNode s msg).lead_info = true) ∧
    (∀ s : SessionState,
        route_next_action s = "tool_execution" ↔ s.next_action = some "execute_tool") ∧
    (∀ (llm : String → Option String) (s : SessionState) (msg : String),
        (intentClassifierNode llm s msg).next_action = "route") ∧
    (∀ (rOk : Bool) (llm : String → Option String) (msg : String),
        (ragNode rOk llm msg).next_action = "end") ∧
    greetingNode.next_action = "end" ∧
    (∀ s : SessionState, (toolExecutionNode s).next_action = "end") := by
  have hlead : ∀ (s : SessionState) (msg w : String), s.waiting_for = some w →
      ((leadCaptureNode s msg).next_action = "execute_tool" ↔
        leadAllPresent (leadCaptureNode s msg).lead_info = true) := by
    intro s msg w hw
    by_cases hn : present (updateLead s.lead_info (extract_lead_info msg w)).name <;>
      by_cases he : present (updateLead s.lead_info (extract_lead_info msg w)).email <;>
        by_cases hp : present (updateLead s.lead_info (extract_lead_info msg w)).platform <;>
          simp [leadCaptureNode, leadAllPresent, hw, hn, he, hp]
  refine ⟨hlead, ?_, ?_, ?_, ?_, rfl, ?_⟩
  · intro s msg hna
    cases hw : s.waiting_for with
    | none => rw [leadCaptureNode, hw] at hna; exact absurd hna (by simp)
    | some w => exact (hlead s msg w hw).mp hna
  · intro s
    cases hna : s.next_action with
    | none => simp [route_next_action, hna]
    | some a =>
      by_cases ha : a = "execute_tool"
      · subst ha; simp [route_next_action, hna]
      · by_cases hr : a = "route" <;> simp [route_next_action, hna, ha, hr]
  · intro llm s msg
    by_cases h0 : pyTruthy s.waiting_for
    · simp [intentClassifierNode, h0]
    · by_cases h1 : highIntentKeywords.any (fun k => containsS (pyLower msg) k)
      · simp [intentClassifierNode, h0, h1]
      · by_cases h2 : inquiryKeywords.any (fun k => containsS (pyLower msg) k)
        · simp [intentClassifierNode, h0, h1, h2]
        · by_cases h34 : (greetingKeywords.any (fun k => containsS (pyLower msg) k) &&
              decide ((pyWords (pyLower msg)).length < 10)) = true
          · simp [intentClassifierNode, h0, h1, h2, h34]
          · cases hl : llm msg with
            | none => simp [intentClassifierNode, h0, h1, h2, h34, hl]
            | some r =>
              simp [intentClassifierNode, h0, h1, h2, h34, hl] <;>
                (try (split <;> rfl))
  · intro rOk llm msg
    by_cases hP : ragPricingKeywords.any (fun k => containsS (pyLower msg) k)
    · by_cases hR : rOk = true
      · simp [ragNode, hP, hR]
      · simp [ragNode, hP, hR]
    · by_cases hR : rOk = true
      · cases hl : llm msg with
        | none => simp [ragNode, hP, hR, hl]
        | some r =>
          simp [ragNode, hP, hR, hl] <;> (try (split_ifs <;> rfl))
      · simp [ragNode, hP, hR]
  · intro s
    by_cases h0 : s.lead_info.name.getD "" = "" ∨ s.lead_info.email.getD "" = "" ∨
        s.lead_info.platform.getD "" = ""
    · simp [toolExecutionNode, h0]
    · by_cases h1 : mock_lead_capture (s.lead_info.name.getD "") (s.lead_info.email.getD "")
          (s.lead_info.platform.getD "") = "SUCCESS" <;>
        simp [toolExecutionNode, h0, h1]

/-- Witness for C4 (amended): completing the platform on an extraction turn
yields `execute_tool` with a fully present lead. -/
theorem tool_gating_amended_witness :
    (leadCaptureNode awaitingPlatformState "YouTube").next_action = "execute_tool" ∧
    leadAllPresent (leadCaptureNode awaitingPlatformState "YouTube").lead_info = true :=
  ⟨by decide, (tool_gating_amended.1 awaitingPlatformState "YouTube" "platform" rfl).mp (by decide)⟩

/-- C6 counterexample: after a completed capture (name "John" present), a
fresh high-intent message re-enters lead capture (which re-sets
`pending_field = name` although the name is present), and one further
message of whitespace overwrites the stored name with the empty string —
a present lead field is reset to absent by a later turn, and
`pending_field` named a field that was still present. -/
theorem monotonic_fill_counterexample :
    (runTurnsState (completedCaptureMsgs ++ ["I want to sign up"])).lead_info.name =
      some "John" ∧
    present (runTurnsState (completedCaptureMsgs ++ ["I want to sign up"])).lead_info.name =
      true ∧
    (runTurnsState (completedCaptureMsgs ++ ["I want to sign up"])).waiting_for = some "name" ∧
    (runTurnsState (completedCaptureMsgs ++ ["I want to sign up", " "])).lead_info.name =
      some "" ∧
    present (runTurnsState (completedCaptureMsgs ++ ["I want to sign up", " "])).lead_info.name =
      false := by
  refine ⟨by decide, by decide, by decide, by decide, by decide⟩

/-- C6 amended: on every extraction turn whose `pending_field` names a
still-absent field, extraction is scoped to exactly that field — every
other field is unchanged, every present field stays present and unchanged —
and the new `pending_field` again names a still-absent field; so within a
capture session entered with the lead empty, lead fields are monotone.
The invariant is broken only by the first-entry branch, which sets
`pending_field = name` without checking that the name is absent (see the
counterexample). -/
theorem monotonic_fill_amended (s : SessionState) (msg w : String)
    (hw : s.waiting_for = some w) (habs : fieldPresent s.lead_info w = false) :
    (∀ f : String, f ≠ w →
        fieldGet (leadCaptureNode s msg).lead_info f = fieldGet s.lead_info f) ∧
    (∀ f : String, fieldPresent s.lead_info f = true →
        fieldGet (leadCaptureNode s msg).lead_info f = fieldGet s.lead_info f) ∧
    (∀ g : String, (leadCaptureNode s msg).waiting_for = some g →
        fieldPresent (leadCaptureNode s msg).lead_info g = false) := by
  have hlead : (leadCaptureNode s msg).lead_info =
      updateLead s.lead_info (extract_lead_info msg w) := by
    rw [leadCaptureNode, hw]
    simp only
    split_ifs <;> rfl
  have hother : ∀ f : String, f ≠ w →
      fieldGet (updateLead s.lead_info (extract_lead_info msg w)) f = fieldGet s.lead_info f := by
    intro f hf
    by_cases f1 : f = "name"
    · subst f1
      have := (extract_scoped msg w).1 (fun hwn => hf (hwn ▸ rfl))
      simp [fieldGet, updateLead, this]
    · by_cases f2 : f = "email"
      · subst f2
        have := (extract_scoped msg w).2.1 (fun hwn => hf (hwn ▸ rfl))
        simp [fieldGet, updateLead, this]
      · by_cases f3 : f = "platform"
        · subst f3
          have := (extract_scoped msg w).2.2 (fun hwn => hf (hwn ▸ rfl))
          simp [fieldGet, updateLead, this]
        · simp [fieldGet, f1, f2, f3]
  refine ⟨fun f hf => by rw [hlead]; exact hother f hf, ?_, ?_⟩
  · intro f hp
    by_cases hf : f = w
    · subst hf; exact absurd hp (by simp [habs])
    · rw [hlead]; exact hother f hf
  · intro g hg
    rw [leadCaptureNode, hw] at hg
    rw [hlead]
    by_cases hn : present (updateLead s.lead_info (extract_lead_info msg w)).name
    · by_cases he : present (updateLead s.lead_info (extract_lead_info msg w)).email
      · by_cases hp : present (updateLead s.lead_info (extract_lead_info msg w)).platform
        · simp [hn, he, hp] at hg
        · simp [hn, he, hp] at hg
          subst hg
          simp [fieldPresent, fieldGet, hp]
      · simp [hn, he] at hg
        subst hg
        simp [fieldPresent, fieldGet, he]
    · simp [hn] at hg
      subst hg
      simp [fieldPresent, fieldGet, hn]

/-- Witness for C6 (amended): extracting the email with
`pending_field = email` leaves the present name untouched and moves
`pending_field` to the still-absent platform. -/
theorem monotonic_fill_amended_witness :
    fieldGet (leadCaptureNode { lead_info := LeadInfo.mk (some "John") none none, waiting_for := some "email" } "john@doe.com").lead_info "name" = some "John" :=
  (monotonic_fill_amended
      { lead_info := LeadInfo.mk (some "John") none none, waiting_for := some "email" }
      "john@doe.com" "email" rfl (by decide)).2.1 "name" (by decide)

/-- C3 counterexample: the message "How much is the Pro plan?" contains
"how much", but because it also contains "pro" the deterministic fast path
returns the Pro-specific reply, which names neither the Basic Plan nor its
price — so the claim that every "pricing"/"how much" message yields both
plan names and both prices fails at this input. -/
theorem pricing_counterexample :
    containsS (pyLower "How much is the Pro plan?") "how much" = true ∧
    (turn true (fun _ => none) initialState "How much is the Pro plan?").replies.length = 1 ∧
    containsS ((turn true (fun _ => none) initialState
        "How much is the Pro plan?").replies.headD "") "Pro Plan" = true ∧
    containsS ((turn true (fun _ => none) initialState
        "How much is the Pro plan?").replies.headD "") "Basic Plan" = false ∧
    containsS ((turn true (fun _ => none) initialState
        "How much is the Pro plan?").replies.headD "") "$29/month" = false := by
  refine ⟨by decide, by decide, by decide, by decide, by decide⟩

/-- C3 amended: for every query whose lower-cased text contains "pricing" or
"how much" but mentions neither "pro" nor "basic", the RAG node returns the
deterministic two-plan pricing reply — identically for every model oracle
and whether or not the retriever is available, since the pricing path never
reaches the model — and that reply names both plans and both prices.
Queries mentioning a specific plan instead get that plan's single-plan
reply (see the counterexample). -/
theorem pricing_deterministic_general (rOk : Bool) (llm : String → Option String) (q : String)
    (hkw : containsS (pyLower q) "pricing" = true ∨ containsS (pyLower q) "how much" = true)
    (hpro : containsS (pyLower q) "pro" = false)
    (hbasic : containsS (pyLower q) "basic" = false) :
    ragNode rOk llm q = { reply := generalPricingReply, next_action := "end" } ∧
    containsS generalPricingReply "Basic Plan" = true ∧
    containsS generalPricingReply "Pro Plan" = true ∧
    containsS generalPricingReply "$29/month" = true ∧
    containsS generalPricingReply "$79/month" = true := by
  have hfb : getFallbackResponse q = generalPricingReply := by
    have hany : fallbackPricingKeywords.any (fun k => containsS (pyLower q) k) = true := by
      rcases hkw with h | h
      · exact List.any_eq_true.mpr ⟨"pricing", by simp [fallbackPricingKeywords], h⟩
      · exact List.any_eq_true.mpr ⟨"how much", by simp [fallbackPricingKeywords], h⟩
    simp [getFallbackResponse, hany, hpro, hbasic]
  have hany' : ragPricingKeywords.any (fun k => containsS (pyLower q) k) = true := by
    rcases hkw with h | h
    · exact List.any_eq_true.mpr ⟨"pricing", by simp [ragPricingKeywords], h⟩
    · exact List.any_eq_true.mpr ⟨"how much", by simp [ragPricingKeywords], h⟩
  refine ⟨?_, by decide, by decide, by decide, by decide⟩
  cases rOk with
  | true => simp [ragNode, hany', hfb]
  | false => simp [ragNode, hany', hfb]

/-- Witness for C3 (amended): the bare query "pricing" gets the two-plan
reply even with a failing model. -/
theorem pricing_deterministic_general_witness :
    containsS (pyLower "pricing") "pricing" = true ∧
    ragNode true (fun _ => none) "pricing" =
      { reply := generalPricingReply, next_action := "end" } :=
  ⟨by decide,
   (pricing_deterministic_general true (fun _ => none) "pricing" (Or.inl (by decide))
      (by decide) (by decide)).1⟩

/-- C8 counterexample: "My Name is Bob" contains the "name is" marker the
way the code detects it (case-insensitively), but because the split is done
case-sensitively on the original text, the extracted name is the whole
message rather than the text after the marker ("Bob"). -/
theorem name_extraction_counterexample :
    containsS (pyLower "My Name is Bob") "name is" = true ∧
    extract_lead_info "My Name is Bob" "name" = { name := some "My Name is Bob" } ∧
    pyStrip (pySplitLast (pyLower "My Name is Bob") "name is") = "bob" ∧
    extract_lead_info "My Name is Bob" "name" ≠ { name := some "Bob" } := by
  refine ⟨by decide, by decide, by decide, by decide⟩

/-- C8 amended: the three-tier heuristic detects markers on the lower-cased
message but extracts from the original one: if the lower-cased message
contains "name is", the name is the trimmed text after the last literal
occurrence of "name is" in the original message — which is the whole
message when the marker occurs only in a different capitalization (so
Scenario C still holds: "My name is John Doe" gives "John Doe"); otherwise,
if it contains "i\x27m " or "i am ", the name is the lower-cased message
with those markers removed and trimmed (so "I\x27m Alice" gives "alice", not
"Alice"); otherwise the name is the full trimmed message. -/
theorem name_extraction_amended :
    extract_lead_info "My name is John Doe" "name" = { name := some "John Doe" } ∧
    (∀ text : String, containsS (pyLower text) "name is" = true →
        extract_lead_info text "name" =
          { name := some (pyStrip (pySplitLast text "name is")) }) ∧
    extract_lead_info "I\x27m Alice" "name" = { name := some "alice" } ∧
    (∀ text : String, containsS (pyLower text) "name is" = false →
        containsS (pyLower text) "i\x27m " = false →
        containsS (pyLower text) "i am " = false →
        extract_lead_info text "name" = { name := some (pyStrip text) }) := by
  refine ⟨by decide, ?_, by decide, ?_⟩
  · intro text h
    simp [extract_lead_info, h]
  · intro text h1 h2 h3
    simp [extract_lead_info, h1, h2, h3]

/-- Witness for C8 (amended): Scenario C through the marker tier, and the
fallback tier on a bare name. -/
theorem name_extraction_amended_witness :
    extract_lead_info "my name is Jane" "name" = { name := some "Jane" } ∧
    extract_lead_info "Bob" "name" = { name := some "Bob" } :=
  ⟨by
     have h := name_extraction_amended.2.1 "my name is Jane" (by decide)
     simpa using h,
   by
     have h := name_extraction_amended.2.2.2 "Bob" (by decide) (by decide) (by decide)
     simpa using h⟩

end AutoStream
